import Mathlib

/-!
Shallow embedding of the session lifecycle core of world-chat-desktop:
the `restoreSession` and `initializeWithRemoteSigner` operations of
`webapp/hooks/useQRXmtpClient.ts`, together with the session-cache storage
layer (`setSessionCache` address normalisation) and the error-message
classifiers (`isDatabaseCorruptionError` and the inline fingerprint checks).

External effects (storage reads/writes, OPFS database deletion, tab-lock
operations, network round-trips, client construction) are recorded in an
explicit event trace; external outcomes (lock availability, build/create
results, verification results, delete-all success) are supplied by an
environment record, so each theorem quantifies over all behaviours of the
collaborators.
-/

namespace WorldChat

/-- Character-list lowering (ASCII), the character map behind
`toLowerCase`. -/
def lowerChars : List Char → List Char
  | [] => []
  | c :: cs => c.toLower :: lowerChars cs

/-- Model of JavaScript `String.prototype.toLowerCase` as used by the
source (account identifiers and error fingerprints are ASCII). -/
def strLower (s : String) : String :=
  ⟨lowerChars s.data⟩

/-- Predicate `leadsWith pat l`: true iff `l` starts with `pat`. -/
def leadsWith : List Char → List Char → Bool
  | [], _ => true
  | _ :: _, [] => false
  | a :: as, b :: bs => a == b && leadsWith as bs

/-- Predicate `hasInfix pat l`: true iff `pat` occurs contiguously in `l`. -/
def hasInfix (pat : List Char) : List Char → Bool
  | [] => leadsWith pat []
  | b :: bs => leadsWith pat (b :: bs) || hasInfix pat bs

/-- Substring test: `strContains s pat` is true iff `pat` occurs in `s`
(mirrors JavaScript `String.prototype.includes`). -/
def strContains (s pat : String) : Bool :=
  hasInfix pat.data s.data

/-- SessionCache record from `lib/storage` (part_000):
`{ address, inboxId, timestamp }`. -/
structure SessionCache where
  address : String
  inboxId : String
  timestamp : Nat
  deriving DecidableEq, Repr

/-- The constructed messaging client, reduced to the one field the
lifecycle code inspects: `inboxId` (empty string models a falsy value). -/
structure ClientHandle where
  inboxId : String
  deriving DecidableEq, Repr

/-- Modelled from the spec: the ClientState held by the client lifecycle
atom (`@/stores/client`, not in the sources): `{client, isInitializing,
error}` with lifecycle absent → initializing → (ready | errored). -/
structure ClientState where
  client : Option ClientHandle
  isInitializing : Bool
  error : Option String
  deriving DecidableEq, Repr

/-- Persistent storage visible to the lifecycle code: the
`xmtp-pending-db-clear` localStorage flag and the cached SessionRecord. -/
structure StoreState where
  pendingDbClear : Bool
  session : Option SessionCache
  deriving DecidableEq, Repr

/-- Full state touched by one lifecycle operation: storage, the client
state atom, and the two in-memory re-entrancy flags
(`restoringRef`, `initializingRef`). -/
structure AppState where
  store : StoreState
  clientState : ClientState
  restoring : Bool
  initializing : Bool
  deriving DecidableEq, Repr

/-- Observable effect events, in program order. -/
inductive Ev where
  /-- Call to `localStorage.getItem(PENDING_DB_CLEAR_KEY)` -/
  | readPendingFlag
  /-- Call to `deleteAllXmtpDatabases()` (destructive storage access) -/
  | deleteAllDb
  /-- Call to `localStorage.removeItem(PENDING_DB_CLEAR_KEY)` -/
  | removePendingFlag
  /-- Call to `localStorage.setItem(PENDING_DB_CLEAR_KEY, "true")` -/
  | setPendingFlag
  /-- Call to `clearSession()` (drops the SessionRecord) -/
  | clearSessionEv
  /-- Call to `getSessionCache()` -/
  | readSession
  /-- Call to `setSessionCache(address, inboxId)` -/
  | writeSession (address inboxId : String)
  /-- Call to `isLockedByAnotherTab()` -/
  | lockCheck
  /-- Call to `acquireTabLock()` -/
  | lockAcquire
  /-- Call to `releaseTabLock()` -/
  | lockRelease
  /-- Call to `Client.build` with the given identifier -/
  | buildClient (identifier : String)
  /-- Call to `Client.create` with the given signer identifier -/
  | createClient (identifier : String)
  /-- Call to `client.preferences.sync()` (network round trip) -/
  | syncNetwork
  /-- Call to `deleteXmtpDatabase(inboxId)` -/
  | deleteDb (inboxId : String)
  /-- Handoff to `streamManager` (background) -/
  | streamInit
  deriving DecidableEq, Repr

/-- Storage-mutating events. -/
def isStorageWrite : Ev → Bool
  | Ev.deleteAllDb => true
  | Ev.removePendingFlag => true
  | Ev.setPendingFlag => true
  | Ev.clearSessionEv => true
  | Ev.writeSession _ _ => true
  | Ev.deleteDb _ => true
  | _ => false

/-- Network round-trip events. -/
def isNetworkCall : Ev → Bool
  | Ev.syncNetwork => true
  | Ev.streamInit => true
  | Ev.createClient _ => true
  | _ => false

/-- Tab-lock operations. -/
def isLockOp : Ev → Bool
  | Ev.lockCheck => true
  | Ev.lockAcquire => true
  | Ev.lockRelease => true
  | _ => false

/-- Environment: outcomes of the external collaborators during one call.
`deleteAllOk` is modelled from the spec contract
`deleteAll() -> {success, failedFiles}` (the storage variant consumed by
the hook is not among the sources); tab-lock outcomes are modelled from
the spec contract of `lib/tab-lock` (not among the sources). -/
structure Env where
  lockedByAnotherTab : Bool
  acquireOk : Bool
  deleteAllOk : Bool
  buildResult : Except String ClientHandle
  createResult : Except String ClientHandle
  syncResult : Option String
  signerAddress : String
  now : Nat
  deriving Repr

/-- From `useQRXmtpClient.ts` lines 28-37: corruption fingerprints,
matched on the lowercased message. -/
def isDatabaseCorruptionError (errorMessage : String) : Bool :=
  let errorLower := strLower errorMessage
  strContains errorLower "database disk image is malformed" ||
  strContains errorLower "sqlite_corrupt" ||
  (strContains errorLower "sqlkeystore" && strContains errorLower "malformed") ||
  (strContains errorLower "welcome error" && strContains errorLower "querying storage")

/-- Tab-lock / OPFS access-handle conflict fingerprints
(`useQRXmtpClient.ts` lines 223-227, 282-286, 420-424; case-sensitive). -/
def isTabLockMsg (m : String) : Bool :=
  strContains m "Access Handle" ||
  strContains m "SyncAccessHandle" ||
  strContains m "createSyncAccessHandle"

/-- Uninitialized-identity fingerprints
(`useQRXmtpClient.ts` lines 232-234, 429-431; case-sensitive). -/
def isUninitMsg (m : String) : Bool :=
  strContains m "Uninitialized identity" ||
  strContains m "register_identity"

/-- Database-confirmed-absent fingerprints
(`useQRXmtpClient.ts` lines 309-312, lowercased message). -/
def isDbGoneMsg (m : String) : Bool :=
  strContains (strLower m) "no local database" ||
  strContains (strLower m) "database not found" ||
  strContains (strLower m) "not found"

/-- Modelled from the spec: `INIT_START` dispatch of the lifecycle atom
(state becomes "initializing"). -/
def initStart (c : ClientState) : ClientState :=
  { c with isInitializing := true, error := none }

/-- Modelled from the spec: `INIT_SUCCESS` dispatch (state becomes "ready"
with the live client installed). -/
def initSuccess (h : ClientHandle) : ClientState :=
  { client := some h, isInitializing := false, error := none }

/-- Modelled from the spec: `INIT_ERROR` dispatch (state becomes "errored",
no live client). -/
def initError (msg : String) : ClientState :=
  { client := none, isInitializing := false, error := some msg }

/-- Function `setSessionCache` from `lib/storage` (part_000 lines 141-166):
the stored address is lowercased, the timestamp is the current instant. -/
def setSessionCache (address inboxId : String) (now : Nat) (st : StoreState) : StoreState :=
  { st with session := some { address := strLower address, inboxId := inboxId, timestamp := now } }

/-- The session-match test of `initializeWithRemoteSigner`
(`useQRXmtpClient.ts` lines 394-395):
`existingSession?.address?.toLowerCase() === address.toLowerCase()`. -/
def sessionMatches (sess : Option SessionCache) (address : String) : Bool :=
  match sess with
  | some es => strLower es.address == strLower address
  | none => false

/-- Outer catch block of `restoreSession` (`useQRXmtpClient.ts`
lines 271-326): release lock, rethrow TAB_LOCKED, map access-handle
conflicts to TAB_LOCKED, persist the pending-clear flag on corruption,
clear the session only when the database is confirmedly gone, otherwise
surface the error with the session intact. -/
def restoreCatch (s : AppState) (tr : List Ev) (msg : String) :
    Except String Bool × AppState × List Ev :=
  let tr1 := tr ++ [Ev.lockRelease]
  if msg = "TAB_LOCKED" then
    (Except.error "TAB_LOCKED", s, tr1)
  else if isTabLockMsg msg then
    (Except.error "TAB_LOCKED", s, tr1)
  else if msg = "DATABASE_CORRUPTED" || isDatabaseCorruptionError msg then
    (Except.ok false,
      { s with store := { s.store with pendingDbClear := true },
               clientState := initError "Local message database is corrupted. Reload to repair." },
      tr1 ++ [Ev.setPendingFlag])
  else if isDbGoneMsg msg then
    (Except.ok false,
      { s with store := { s.store with session := none },
               clientState := initError msg },
      tr1 ++ [Ev.clearSessionEv])
  else
    (Except.ok false, { s with clientState := initError msg }, tr1)

/-- Success tail of `restoreSession` (`useQRXmtpClient.ts` lines 261-270):
refresh the session cache when the client reports an inboxId, install the
client, hand off to the stream manager, return true. -/
def restoreSuccess (now : Nat) (cached : SessionCache) (h : ClientHandle)
    (s : AppState) (tr : List Ev) :
    Except String Bool × AppState × List Ev :=
  if h.inboxId = "" then
    (Except.ok true, { s with clientState := initSuccess h }, tr ++ [Ev.streamInit])
  else
    (Except.ok true,
      { s with store := setSessionCache cached.address h.inboxId now s.store,
               clientState := initSuccess h },
      tr ++ [Ev.writeSession cached.address h.inboxId, Ev.streamInit])

/-- Operation `restoreSession` (`useQRXmtpClient.ts` lines 136-329).
Returns the call result (`Except.error` models a thrown error), the final
state, and the trace of external effects in program order. -/
def restoreSession (env : Env) (s : AppState) :
    Except String Bool × AppState × List Ev :=
  if s.restoring || s.initializing || s.clientState.client.isSome then
    (Except.ok s.clientState.client.isSome, s, [])
  else if s.store.pendingDbClear then
    if env.deleteAllOk then
      (Except.ok false,
        { s with store := { pendingDbClear := false, session := none } },
        [Ev.readPendingFlag, Ev.deleteAllDb, Ev.removePendingFlag, Ev.clearSessionEv])
    else
      (Except.ok false, s, [Ev.readPendingFlag, Ev.deleteAllDb])
  else
    match s.store.session with
    | none => (Except.ok false, s, [Ev.readPendingFlag, Ev.readSession])
    | some cached =>
      if env.lockedByAnotherTab then
        (Except.error "TAB_LOCKED", s,
          [Ev.readPendingFlag, Ev.readSession, Ev.lockCheck])
      else if !env.acquireOk then
        (Except.error "TAB_LOCKED", s,
          [Ev.readPendingFlag, Ev.readSession, Ev.lockCheck, Ev.lockAcquire])
      else
        let s1 := { s with clientState := initStart s.clientState }
        let tr1 := [Ev.readPendingFlag, Ev.readSession, Ev.lockCheck, Ev.lockAcquire,
                    Ev.buildClient (strLower cached.address)]
        match env.buildResult with
        | Except.error msg => restoreCatch s1 tr1 msg
        | Except.ok h =>
          let tr2 := tr1 ++ [Ev.syncNetwork]
          match env.syncResult with
          | none => restoreSuccess env.now cached h s1 tr2
          | some verifyMsg =>
            if isTabLockMsg verifyMsg then
              restoreCatch s1 (tr2 ++ [Ev.lockRelease]) "TAB_LOCKED"
            else if isUninitMsg verifyMsg then
              (Except.ok false,
                { s1 with
                    store := { s1.store with session := none },
                    clientState := initError "Identity registration incomplete. Please login again." },
                tr2 ++ [Ev.lockRelease] ++
                  (if cached.inboxId = "" then [] else [Ev.deleteDb cached.inboxId]) ++
                  [Ev.clearSessionEv])
            else if isDatabaseCorruptionError verifyMsg then
              restoreCatch
                { s1 with store := { s1.store with pendingDbClear := true } }
                (tr2 ++ [Ev.setPendingFlag]) "DATABASE_CORRUPTED"
            else
              restoreSuccess env.now cached h s1 tr2

/-- Outer catch block of `initializeWithRemoteSigner`
(`useQRXmtpClient.ts` lines 457-466): release lock, dispatch INIT_ERROR,
rethrow. -/
def initCatch (s : AppState) (tr : List Ev) (msg : String) :
    Except String Unit × AppState × List Ev :=
  (Except.error msg,
    { s with clientState := initError msg },
    tr ++ [Ev.lockRelease])

/-- Success tail of `initializeWithRemoteSigner`
(`useQRXmtpClient.ts` lines 449-456). -/
def initFinish (now : Nat) (address : String) (h : ClientHandle)
    (s : AppState) (tr : List Ev) :
    Except String Unit × AppState × List Ev :=
  if h.inboxId = "" then
    (Except.ok (), { s with clientState := initSuccess h }, tr ++ [Ev.streamInit])
  else
    (Except.ok (),
      { s with store := setSessionCache address h.inboxId now s.store,
               clientState := initSuccess h },
      tr ++ [Ev.writeSession address h.inboxId, Ev.streamInit])

/-- Verification step of `initializeWithRemoteSigner`
(`useQRXmtpClient.ts` lines 411-447): access-handle conflicts release the
lock and rethrow TAB_LOCKED; uninitialized identity deletes the new
client's database, releases the lock, clears the session and throws;
anything else is treated as transient and the call proceeds. -/
def initVerify (env : Env) (address : String) (h : ClientHandle)
    (s : AppState) (tr : List Ev) :
    Except String Unit × AppState × List Ev :=
  match env.syncResult with
  | none => initFinish env.now address h s tr
  | some verifyMsg =>
    if isTabLockMsg verifyMsg then
      initCatch s (tr ++ [Ev.lockRelease]) "TAB_LOCKED"
    else if isUninitMsg verifyMsg then
      initCatch
        { s with store := { s.store with session := none },
                 clientState := initError "Identity registration failed. Please try again." }
        (tr ++ (if h.inboxId = "" then [] else [Ev.deleteDb h.inboxId]) ++
          [Ev.lockRelease, Ev.clearSessionEv])
        "Identity registration incomplete"
    else
      initFinish env.now address h s tr

/-- Operation `initializeWithRemoteSigner` (`useQRXmtpClient.ts` lines 331-472).
The signer is reduced to the identifier it reports (`env.signerAddress`). -/
def initializeWithRemoteSigner (env : Env) (s : AppState) :
    Except String Unit × AppState × List Ev :=
  if s.initializing then (Except.ok (), s, [])
  else if s.clientState.client.isSome then (Except.ok (), s, [])
  else if env.lockedByAnotherTab then
    (Except.error "TAB_LOCKED", s, [Ev.lockCheck])
  else if !env.acquireOk then
    (Except.error "TAB_LOCKED", s, [Ev.lockCheck, Ev.lockAcquire])
  else
    let s1 := { s with clientState := initStart s.clientState }
    let address := env.signerAddress
    let tr1 := [Ev.lockCheck, Ev.lockAcquire, Ev.readSession]
    if sessionMatches s.store.session address then
      match env.buildResult with
      | Except.error msg => initCatch s1 (tr1 ++ [Ev.buildClient (strLower address)]) msg
      | Except.ok h =>
        initVerify env address h s1 (tr1 ++ [Ev.buildClient (strLower address), Ev.syncNetwork])
    else
      match env.createResult with
      | Except.error msg => initCatch s1 (tr1 ++ [Ev.createClient address]) msg
      | Except.ok h =>
        initVerify env address h s1 (tr1 ++ [Ev.createClient address, Ev.syncNetwork])

/-- Claim C8: while a live client is already present, `restoreSession`
returns true immediately, leaves the whole state unchanged and performs no
external effect at all, so any sequence of such calls is an idempotent
no-op. -/
theorem restore_noop_when_client_present (env : Env) (s : AppState) (h : ClientHandle)
    (hc : s.clientState.client = some h) :
    restoreSession env s = (Except.ok true, s, []) := by
  simp [restoreSession, hc]

/-- Witness for C8 at a concrete state holding a live client. -/
theorem restore_noop_when_client_present_witness :
    restoreSession
      { lockedByAnotherTab := false, acquireOk := true, deleteAllOk := true,
        buildResult := Except.ok { inboxId := "in_1" },
        createResult := Except.ok { inboxId := "in_1" },
        syncResult := none, signerAddress := "0xabc", now := 7 }
      { store := { pendingDbClear := true,
                   session := some { address := "0xabc", inboxId := "in_1", timestamp := 0 } },
        clientState := { client := some { inboxId := "in_1" },
                         isInitializing := false, error := none },
        restoring := false, initializing := false } =
      (Except.ok true,
        { store := { pendingDbClear := true,
                     session := some { address := "0xabc", inboxId := "in_1", timestamp := 0 } },
          clientState := { client := some { inboxId := "in_1" },
                           isInitializing := false, error := none },
          restoring := false, initializing := false },
        []) :=
  restore_noop_when_client_present _ _ { inboxId := "in_1" } rfl

/-- Claim C9: with no cached SessionRecord and no pending clear flag,
`restoreSession` returns false, leaves the state unchanged, and its trace
contains no storage write, no network call, no tab-lock acquisition and no
client construction. -/
theorem restore_no_session_frame (env : Env) (s : AppState)
    (hc : s.clientState.client = none)
    (hs : s.store.session = none)
    (hp : s.store.pendingDbClear = false) :
    (restoreSession env s).1 = Except.ok false ∧
    (restoreSession env s).2.1 = s ∧
    (∀ e ∈ (restoreSession env s).2.2, isStorageWrite e = false) ∧
    (∀ e ∈ (restoreSession env s).2.2, isNetworkCall e = false) ∧
    Ev.lockAcquire ∉ (restoreSession env s).2.2 ∧
    (∀ a, Ev.buildClient a ∉ (restoreSession env s).2.2) ∧
    (∀ a, Ev.createClient a ∉ (restoreSession env s).2.2) := by
  by_cases hr : s.restoring = true <;> by_cases hi : s.initializing = true <;>
    simp_all [restoreSession, isStorageWrite, isNetworkCall]

/-- Witness for C9 at a concrete empty-session state. -/
theorem restore_no_session_frame_witness :
    (restoreSession
      { lockedByAnotherTab := true, acquireOk := false, deleteAllOk := true,
        buildResult := Except.error "boom",
        createResult := Except.error "boom",
        syncResult := some "boom", signerAddress := "0xabc", now := 7 }
      { store := { pendingDbClear := false, session := none },
        clientState := { client := none, isInitializing := false, error := none },
        restoring := false, initializing := false }).1 = Except.ok false :=
  (restore_no_session_frame _ _ rfl rfl rfl).1

/-- Claim C10: when the pending-clear flag is set at entry (and the call is
not short-circuited by a live client or an in-flight operation), the
delete-all cleanup executes and the whole call performs no tab-lock
operation of any kind. -/
theorem restore_pending_skips_tab_lock (env : Env) (s : AppState)
    (hc : s.clientState.client = none) (hr : s.restoring = false)
    (hi : s.initializing = false)
    (hp : s.store.pendingDbClear = true) :
    Ev.deleteAllDb ∈ (restoreSession env s).2.2 ∧
    (∀ e ∈ (restoreSession env s).2.2, isLockOp e = false) := by
  by_cases hd : env.deleteAllOk = true <;>
    simp_all [restoreSession, isLockOp]

/-- Witness for C10 at a concrete pending-clear state. -/
theorem restore_pending_skips_tab_lock_witness :
    Ev.deleteAllDb ∈
      (restoreSession
        { lockedByAnotherTab := true, acquireOk := false, deleteAllOk := true,
          buildResult := Except.error "boom",
          createResult := Except.error "boom",
          syncResult := none, signerAddress := "0xabc", now := 7 }
        { store := { pendingDbClear := true,
                     session := some { address := "0xabc", inboxId := "in_1", timestamp := 0 } },
          clientState := { client := none, isInitializing := false, error := none },
          restoring := false, initializing := false }).2.2 :=
  (restore_pending_skips_tab_lock _ _ rfl rfl rfl rfl).1

/-- Counterexample to claim C1 as stated: when the delete-all cleanup
fails (`success = false`, a result the storage contract
`deleteAll() -> {success, failedFiles}` allows), the call still returns
false but clears neither the pending flag nor the SessionRecord, so the
claim's unconditional "then clears PendingDbClearFlag, clears the
SessionRecord" is false. -/
theorem restore_pending_clear_cex :
    (restoreSession
      { lockedByAnotherTab := false, acquireOk := true, deleteAllOk := false,
        buildResult := Except.ok { inboxId := "in_1" },
        createResult := Except.ok { inboxId := "in_1" },
        syncResult := none, signerAddress := "0xabc", now := 7 }
      { store := { pendingDbClear := true,
                   session := some { address := "0xabc", inboxId := "in_1", timestamp := 0 } },
        clientState := { client := none, isInitializing := false, error := none },
        restoring := false, initializing := false }).1 = Except.ok false ∧
    (restoreSession
      { lockedByAnotherTab := false, acquireOk := true, deleteAllOk := false,
        buildResult := Except.ok { inboxId := "in_1" },
        createResult := Except.ok { inboxId := "in_1" },
        syncResult := none, signerAddress := "0xabc", now := 7 }
      { store := { pendingDbClear := true,
                   session := some { address := "0xabc", inboxId := "in_1", timestamp := 0 } },
        clientState := { client := none, isInitializing := false, error := none },
        restoring := false, initializing := false }).2.1.store.pendingDbClear = true ∧
    (restoreSession
      { lockedByAnotherTab := false, acquireOk := true, deleteAllOk := false,
        buildResult := Except.ok { inboxId := "in_1" },
        createResult := Except.ok { inboxId := "in_1" },
        syncResult := none, signerAddress := "0xabc", now := 7 }
      { store := { pendingDbClear := true,
                   session := some { address := "0xabc", inboxId := "in_1", timestamp := 0 } },
        clientState := { client := none, isInitializing := false, error := none },
        restoring := false, initializing := false }).2.1.store.session =
      some { address := "0xabc", inboxId := "in_1", timestamp := 0 } :=
  ⟨rfl, rfl, rfl⟩

/-- Claim C1 (amended): with the pending flag set and no short-circuit, the
very next `restoreSession` call runs the delete-all cleanup immediately
after reading the flag and before any other storage or network access, and
returns false; if the cleanup succeeds it then clears the flag and the
SessionRecord, and if the cleanup fails it leaves the whole state
unchanged for a later retry. -/
theorem restore_pending_clear_amended (env : Env) (s : AppState)
    (hc : s.clientState.client = none) (hr : s.restoring = false)
    (hi : s.initializing = false)
    (hp : s.store.pendingDbClear = true) :
    (restoreSession env s).1 = Except.ok false ∧
    ((restoreSession env s).2.2 = [Ev.readPendingFlag, Ev.deleteAllDb] ∨
     (restoreSession env s).2.2 =
       [Ev.readPendingFlag, Ev.deleteAllDb, Ev.removePendingFlag, Ev.clearSessionEv]) ∧
    (env.deleteAllOk = true →
      (restoreSession env s).2.1.store.pendingDbClear = false ∧
      (restoreSession env s).2.1.store.session = none) ∧
    (env.deleteAllOk = false → (restoreSession env s).2.1 = s) := by
  by_cases hd : env.deleteAllOk = true <;>
    simp_all [restoreSession]

/-- Witness for the amended C1 at a concrete pending-clear state with a
successful cleanup. -/
theorem restore_pending_clear_amended_witness :
    (restoreSession
      { lockedByAnotherTab := false, acquireOk := true, deleteAllOk := true,
        buildResult := Except.ok { inboxId := "in_1" },
        createResult := Except.ok { inboxId := "in_1" },
        syncResult := none, signerAddress := "0xabc", now := 7 }
      { store := { pendingDbClear := true,
                   session := some { address := "0xabc", inboxId := "in_1", timestamp := 0 } },
        clientState := { client := none, isInitializing := false, error := none },
        restoring := false, initializing := false }).1 = Except.ok false :=
  (restore_pending_clear_amended _ _ rfl rfl rfl rfl).1

theorem isTabLockMsg_databaseCorrupted : isTabLockMsg "DATABASE_CORRUPTED" = false := by
  decide

/-- Counterexample to claim C4 as stated: the verification failure message
`"register_identity: sqlite_corrupt"` contains a recognized corruption
fingerprint, yet the call classifies it as uninitialized identity first,
clears the SessionRecord and never sets the pending-clear flag. -/
theorem restore_corruption_overlap_cex :
    isDatabaseCorruptionError "register_identity: sqlite_corrupt" = true ∧
    (restoreSession
      { lockedByAnotherTab := false, acquireOk := true, deleteAllOk := true,
        buildResult := Except.ok { inboxId := "in_2" },
        createResult := Except.ok { inboxId := "in_2" },
        syncResult := some "register_identity: sqlite_corrupt",
        signerAddress := "0xabc", now := 5 }
      { store := { pendingDbClear := false,
                   session := some { address := "0xabc", inboxId := "in_1", timestamp := 0 } },
        clientState := { client := none, isInitializing := false, error := none },
        restoring := false, initializing := false }).2.1.store.pendingDbClear = false ∧
    (restoreSession
      { lockedByAnotherTab := false, acquireOk := true, deleteAllOk := true,
        buildResult := Except.ok { inboxId := "in_2" },
        createResult := Except.ok { inboxId := "in_2" },
        syncResult := some "register_identity: sqlite_corrupt",
        signerAddress := "0xabc", now := 5 }
      { store := { pendingDbClear := false,
                   session := some { address := "0xabc", inboxId := "in_1", timestamp := 0 } },
        clientState := { client := none, isInitializing := false, error := none },
        restoring := false, initializing := false }).2.1.store.session = none :=
  ⟨rfl, rfl, rfl⟩

/-- Claim C4 (amended): a verification failure whose message contains a
recognized corruption fingerprint and is not first classified as a
tab-lock conflict or an uninitialized identity (those fingerprints take
precedence) sets the pending-clear flag, leaves the SessionRecord
untouched and returns false. -/
theorem restore_corruption_sets_flag_amended (env : Env) (s : AppState)
    (c : SessionCache) (m : String) (h : ClientHandle)
    (hr : s.restoring = false) (hi : s.initializing = false)
    (hc : s.clientState.client = none) (hp : s.store.pendingDbClear = false)
    (hs : s.store.session = some c)
    (hl : env.lockedByAnotherTab = false) (ha : env.acquireOk = true)
    (hb : env.buildResult = Except.ok h)
    (hv : env.syncResult = some m)
    (h1 : isTabLockMsg m = false) (h2 : isUninitMsg m = false)
    (h3 : isDatabaseCorruptionError m = true) :
    (restoreSession env s).1 = Except.ok false ∧
    (restoreSession env s).2.1.store.pendingDbClear = true ∧
    (restoreSession env s).2.1.store.session = some c := by
  simp [restoreSession, restoreCatch, hr, hi, hc, hp, hs, hl, ha, hb, hv,
        h1, h2, h3, initStart, initError, isTabLockMsg_databaseCorrupted]

/-- Witness for the amended C4 with the corruption message
`"SQLITE_CORRUPT: database disk image is malformed"`. -/
theorem restore_corruption_sets_flag_amended_witness :
    (restoreSession
      { lockedByAnotherTab := false, acquireOk := true, deleteAllOk := true,
        buildResult := Except.ok { inboxId := "in_2" },
        createResult := Except.ok { inboxId := "in_2" },
        syncResult := some "SQLITE_CORRUPT: database disk image is malformed",
        signerAddress := "0xabc", now := 5 }
      { store := { pendingDbClear := false,
                   session := some { address := "0xabc", inboxId := "in_1", timestamp := 0 } },
        clientState := { client := none, isInitializing := false, error := none },
        restoring := false, initializing := false }).2.1.store.pendingDbClear = true :=
  (restore_corruption_sets_flag_amended _ _
      { address := "0xabc", inboxId := "in_1", timestamp := 0 }
      "SQLITE_CORRUPT: database disk image is malformed" { inboxId := "in_2" }
      rfl rfl rfl rfl rfl rfl rfl rfl rfl (by decide) (by decide) (by decide)).2.1

/-- Counterexample to claim C5 as stated: the verification failure message
`"Access Handle: Uninitialized identity"` contains a recognized
uninitialized-identity fingerprint, yet the call classifies it as a
tab-lock conflict first: it deletes nothing, leaves the SessionRecord in
place and propagates a TAB_LOCKED exception instead of returning false. -/
theorem restore_uninit_overlap_cex :
    isUninitMsg "Access Handle: Uninitialized identity" = true ∧
    (restoreSession
      { lockedByAnotherTab := false, acquireOk := true, deleteAllOk := true,
        buildResult := Except.ok { inboxId := "in_2" },
        createResult := Except.ok { inboxId := "in_2" },
        syncResult := some "Access Handle: Uninitialized identity",
        signerAddress := "0xabc", now := 5 }
      { store := { pendingDbClear := false,
                   session := some { address := "0xabc", inboxId := "in_1", timestamp := 0 } },
        clientState := { client := none, isInitializing := false, error := none },
        restoring := false, initializing := false }).1 = Except.error "TAB_LOCKED" ∧
    (restoreSession
      { lockedByAnotherTab := false, acquireOk := true, deleteAllOk := true,
        buildResult := Except.ok { inboxId := "in_2" },
        createResult := Except.ok { inboxId := "in_2" },
        syncResult := some "Access Handle: Uninitialized identity",
        signerAddress := "0xabc", now := 5 }
      { store := { pendingDbClear := false,
                   session := some { address := "0xabc", inboxId := "in_1", timestamp := 0 } },
        clientState := { client := none, isInitializing := false, error := none },
        restoring := false, initializing := false }).2.1.store.session =
      some { address := "0xabc", inboxId := "in_1", timestamp := 0 } ∧
    Ev.deleteDb "in_1" ∉
      (restoreSession
        { lockedByAnotherTab := false, acquireOk := true, deleteAllOk := true,
          buildResult := Except.ok { inboxId := "in_2" },
          createResult := Except.ok { inboxId := "in_2" },
          syncResult := some "Access Handle: Uninitialized identity",
          signerAddress := "0xabc", now := 5 }
        { store := { pendingDbClear := false,
                     session := some { address := "0xabc", inboxId := "in_1", timestamp := 0 } },
          clientState := { client := none, isInitializing := false, error := none },
          restoring := false, initializing := false }).2.2 :=
  ⟨rfl, rfl, rfl, by decide⟩

/-- Claim C5 (amended): a verification failure whose message contains a
recognized uninitialized-identity fingerprint and does not also match a
tab-lock fingerprint (checked first), for a cached session with a
nonempty inboxId, deletes that identity's local database, clears the
SessionRecord, and returns false rather than propagating an exception. -/
theorem restore_uninit_cleanup_amended (env : Env) (s : AppState)
    (c : SessionCache) (m : String) (h : ClientHandle)
    (hr : s.restoring = false) (hi : s.initializing = false)
    (hc : s.clientState.client = none) (hp : s.store.pendingDbClear = false)
    (hs : s.store.session = some c)
    (hl : env.lockedByAnotherTab = false) (ha : env.acquireOk = true)
    (hb : env.buildResult = Except.ok h)
    (hv : env.syncResult = some m)
    (h1 : isTabLockMsg m = false) (h2 : isUninitMsg m = true)
    (hnb : c.inboxId ≠ "") :
    (restoreSession env s).1 = Except.ok false ∧
    (restoreSession env s).2.1.store.session = none ∧
    Ev.deleteDb c.inboxId ∈ (restoreSession env s).2.2 := by
  simp [restoreSession, hr, hi, hc, hp, hs, hl, ha, hb, hv, h1, h2, hnb,
        initStart, initError]

/-- Witness for the amended C5 with the spec's scenario message
`"Uninitialized identity: register_identity required"` and inbox `in_1`. -/
theorem restore_uninit_cleanup_amended_witness :
    (restoreSession
      { lockedByAnotherTab := false, acquireOk := true, deleteAllOk := true,
        buildResult := Except.ok { inboxId := "in_2" },
        createResult := Except.ok { inboxId := "in_2" },
        syncResult := some "Uninitialized identity: register_identity required",
        signerAddress := "0xabc", now := 5 }
      { store := { pendingDbClear := false,
                   session := some { address := "0xabc", inboxId := "in_1", timestamp := 0 } },
        clientState := { client := none, isInitializing := false, error := none },
        restoring := false, initializing := false }).2.1.store.session = none :=
  (restore_uninit_cleanup_amended _ _
      { address := "0xabc", inboxId := "in_1", timestamp := 0 }
      "Uninitialized identity: register_identity required" { inboxId := "in_2" }
      rfl rfl rfl rfl rfl rfl rfl rfl rfl (by decide) (by decide) (by decide)).2.1

/-- Counterexample to claim C2 as stated: a verification failure with the
unclassified message `"network timeout"` does not leave the SessionRecord
unchanged — the call treats it as transient, proceeds to success and
rewrites the record (new inboxId and timestamp). The record is changed,
though never cleared. -/
theorem restore_transient_refresh_cex :
    isTabLockMsg "network timeout" = false ∧
    isUninitMsg "network timeout" = false ∧
    isDatabaseCorruptionError "network timeout" = false ∧
    isDbGoneMsg "network timeout" = false ∧
    (restoreSession
      { lockedByAnotherTab := false, acquireOk := true, deleteAllOk := true,
        buildResult := Except.ok { inboxId := "in_2" },
        createResult := Except.ok { inboxId := "in_2" },
        syncResult := some "network timeout",
        signerAddress := "0xabc", now := 5 }
      { store := { pendingDbClear := false,
                   session := some { address := "0xabc", inboxId := "in_1", timestamp := 0 } },
        clientState := { client := none, isInitializing := false, error := none },
        restoring := false, initializing := false }).2.1.store.session =
      some { address := "0xabc", inboxId := "in_2", timestamp := 5 } ∧
    (restoreSession
      { lockedByAnotherTab := false, acquireOk := true, deleteAllOk := true,
        buildResult := Except.ok { inboxId := "in_2" },
        createResult := Except.ok { inboxId := "in_2" },
        syncResult := some "network timeout",
        signerAddress := "0xabc", now := 5 }
      { store := { pendingDbClear := false,
                   session := some { address := "0xabc", inboxId := "in_1", timestamp := 0 } },
        clientState := { client := none, isInitializing := false, error := none },
        restoring := false, initializing := false }).2.1.store.session ≠
      some { address := "0xabc", inboxId := "in_1", timestamp := 0 } :=
  ⟨rfl, rfl, rfl, rfl, rfl, by decide⟩

/-- Claim C2 (amended): for every construction or verification failure in
`restoreSession` whose message is not positively classified as tab-lock
conflict, corruption, uninitialized identity, or confirmed-absent local
database, the SessionRecord is never cleared — it stays present (a
transient verification failure may refresh it as the call proceeds to
success). -/
theorem restore_unclassified_never_clears_session (env : Env) (s : AppState)
    (c : SessionCache)
    (hr : s.restoring = false) (hi : s.initializing = false)
    (hc : s.clientState.client = none) (hp : s.store.pendingDbClear = false)
    (hs : s.store.session = some c)
    (hbuild : ∀ m, env.buildResult = Except.error m →
      isTabLockMsg m = false ∧ isDatabaseCorruptionError m = false ∧
      isUninitMsg m = false ∧ isDbGoneMsg m = false)
    (hsync : ∀ m, env.syncResult = some m →
      isTabLockMsg m = false ∧ isDatabaseCorruptionError m = false ∧
      isUninitMsg m = false ∧ isDbGoneMsg m = false) :
    ((restoreSession env s).2.1.store.session).isSome = true := by
  by_cases hl : env.lockedByAnotherTab = true
  · simp [restoreSession, hr, hi, hc, hp, hs, hl]
  · by_cases ha : env.acquireOk = true
    · rcases hbr : env.buildResult with m | h
      · obtain ⟨t1, t2, t3, t4⟩ := hbuild m hbr
        simp only [Bool.not_eq_true] at hl
        simp [restoreSession, restoreCatch, hr, hi, hc, hp, hs, hl, ha, hbr,
              t1, t2, t3, t4, initStart, initError]
        split_ifs <;> simp [hs]
      · rcases hsy : env.syncResult with _ | m
        · simp only [Bool.not_eq_true] at hl
          simp [restoreSession, restoreSuccess, setSessionCache, hr, hi, hc,
                hp, hs, hl, ha, hbr, hsy, initStart, initSuccess]
          split_ifs <;> simp [hs]
        · obtain ⟨t1, t2, t3, t4⟩ := hsync m hsy
          simp only [Bool.not_eq_true] at hl
          simp [restoreSession, restoreSuccess, setSessionCache, hr, hi, hc,
                hp, hs, hl, ha, hbr, hsy, t1, t2, t3, initStart, initSuccess]
          split_ifs <;> simp [hs]
    · simp only [Bool.not_eq_true] at hl ha
      simp [restoreSession, hr, hi, hc, hp, hs, hl, ha]

/-- Witness for the amended C2: the transient message `"network timeout"`
leaves the session present. -/
theorem restore_unclassified_never_clears_session_witness :
    ((restoreSession
      { lockedByAnotherTab := false, acquireOk := true, deleteAllOk := true,
        buildResult := Except.error "network timeout",
        createResult := Except.ok { inboxId := "in_2" },
        syncResult := none,
        signerAddress := "0xabc", now := 5 }
      { store := { pendingDbClear := false,
                   session := some { address := "0xabc", inboxId := "in_1", timestamp := 0 } },
        clientState := { client := none, isInitializing := false, error := none },
        restoring := false, initializing := false }).2.1.store.session).isSome = true :=
  restore_unclassified_never_clears_session _ _
    { address := "0xabc", inboxId := "in_1", timestamp := 0 }
    rfl rfl rfl rfl rfl
    (fun m hm => by
      injection hm with hm1
      subst hm1
      exact ⟨by decide, by decide, by decide, by decide⟩)
    (fun m hm => by exact absurd hm (by simp))

/-- Helper: whatever the verification step does, it only appends
non-construction events to the trace it is given. -/
theorem initVerify_trace (env : Env) (address : String) (h : ClientHandle)
    (s : AppState) (tr : List Ev) :
    ∃ t2, (initVerify env address h s tr).2.2 = tr ++ t2 ∧
      (∀ a, Ev.createClient a ∉ t2) ∧ (∀ a, Ev.buildClient a ∉ t2) := by
  unfold initVerify initCatch initFinish
  rcases env.syncResult with _ | m
  · by_cases hb : h.inboxId = ""
    · exact ⟨[Ev.streamInit], by simp [hb], by simp, by simp⟩
    · exact ⟨[Ev.writeSession address h.inboxId, Ev.streamInit],
        by simp [hb], by simp, by simp⟩
  · by_cases h1 : isTabLockMsg m = true
    · exact ⟨[Ev.lockRelease, Ev.lockRelease], by simp [h1], by simp, by simp⟩
    · by_cases h2 : isUninitMsg m = true
      · by_cases hb : h.inboxId = ""
        · exact ⟨[Ev.lockRelease, Ev.clearSessionEv, Ev.lockRelease],
            by simp [h1, h2, hb], by simp, by simp⟩
        · exact ⟨[Ev.deleteDb h.inboxId, Ev.lockRelease, Ev.clearSessionEv, Ev.lockRelease],
            by simp [h1, h2, hb], by simp, by simp⟩
      · by_cases hb : h.inboxId = ""
        · exact ⟨[Ev.streamInit], by simp [h1, h2, hb], by simp, by simp⟩
        · exact ⟨[Ev.writeSession address h.inboxId, Ev.streamInit],
            by simp [h1, h2, hb], by simp, by simp⟩

/-- Claim C3: once `initializeWithRemoteSigner` proceeds past its guards,
a stored SessionRecord whose address equals the signer's address
(compared lowercased) makes it reconstruct via build and never invoke
fresh creation, while an absent or differing record makes it invoke fresh
creation (and never build). -/
theorem init_build_vs_create (env : Env) (s : AppState)
    (hi : s.initializing = false) (hc : s.clientState.client = none)
    (hl : env.lockedByAnotherTab = false) (ha : env.acquireOk = true) :
    (sessionMatches s.store.session env.signerAddress = true →
      Ev.buildClient (strLower env.signerAddress) ∈ (initializeWithRemoteSigner env s).2.2 ∧
      ∀ a, Ev.createClient a ∉ (initializeWithRemoteSigner env s).2.2) ∧
    (sessionMatches s.store.session env.signerAddress = false →
      Ev.createClient env.signerAddress ∈ (initializeWithRemoteSigner env s).2.2 ∧
      ∀ a, Ev.buildClient a ∉ (initializeWithRemoteSigner env s).2.2) := by
  constructor
  · intro hm
    rcases hbr : env.buildResult with m | h
    · simp [initializeWithRemoteSigner, initCatch, hi, hc, hl, ha, hm, hbr]
    · have hEq : (initializeWithRemoteSigner env s).2.2 =
          (initVerify env env.signerAddress h
            { s with clientState := initStart s.clientState }
            [Ev.lockCheck, Ev.lockAcquire, Ev.readSession,
             Ev.buildClient (strLower env.signerAddress), Ev.syncNetwork]).2.2 := by
        simp [initializeWithRemoteSigner, hi, hc, hl, ha, hm, hbr]
      obtain ⟨t2, hT, hnc, hnb2⟩ := initVerify_trace env env.signerAddress h
        { s with clientState := initStart s.clientState }
        [Ev.lockCheck, Ev.lockAcquire, Ev.readSession,
         Ev.buildClient (strLower env.signerAddress), Ev.syncNetwork]
      rw [hEq, hT]
      constructor
      · simp
      · intro a
        simp [hnc a]
  · intro hm
    rcases hbr : env.createResult with m | h
    · simp [initializeWithRemoteSigner, initCatch, hi, hc, hl, ha, hm, hbr]
    · have hEq : (initializeWithRemoteSigner env s).2.2 =
          (initVerify env env.signerAddress h
            { s with clientState := initStart s.clientState }
            [Ev.lockCheck, Ev.lockAcquire, Ev.readSession,
             Ev.createClient env.signerAddress, Ev.syncNetwork]).2.2 := by
        simp [initializeWithRemoteSigner, hi, hc, hl, ha, hm, hbr]
      obtain ⟨t2, hT, hnc, hnb2⟩ := initVerify_trace env env.signerAddress h
        { s with clientState := initStart s.clientState }
        [Ev.lockCheck, Ev.lockAcquire, Ev.readSession,
         Ev.createClient env.signerAddress, Ev.syncNetwork]
      rw [hEq, hT]
      constructor
      · simp
      · intro a
        simp [hnb2 a]

/-- Witness for C3 at a concrete fresh-login call (no stored session):
fresh creation is invoked. -/
theorem init_build_vs_create_witness :
    Ev.createClient "0xDEF" ∈
      (initializeWithRemoteSigner
        { lockedByAnotherTab := false, acquireOk := true, deleteAllOk := true,
          buildResult := Except.ok { inboxId := "in_9" },
          createResult := Except.ok { inboxId := "in_9" },
          syncResult := none, signerAddress := "0xDEF", now := 7 }
        { store := { pendingDbClear := false, session := none },
          clientState := { client := none, isInitializing := false, error := none },
          restoring := false, initializing := false }).2.2 :=
  ((init_build_vs_create
      { lockedByAnotherTab := false, acquireOk := true, deleteAllOk := true,
        buildResult := Except.ok { inboxId := "in_9" },
        createResult := Except.ok { inboxId := "in_9" },
        syncResult := none, signerAddress := "0xDEF", now := 7 }
      { store := { pendingDbClear := false, session := none },
        clientState := { client := none, isInitializing := false, error := none },
        restoring := false, initializing := false }
      rfl rfl rfl rfl).2 rfl).1

/-- Claim C7: a successful fresh login stores a SessionRecord whose
address is the lowercased form of the identifier the signer reported, and
the session-match comparison is insensitive to the case of the compared
address (both sides are lowercased). -/
theorem session_address_lowercase (env : Env) (s : AppState) (h : ClientHandle)
    (hi : s.initializing = false) (hc : s.clientState.client = none)
    (hl : env.lockedByAnotherTab = false) (ha : env.acquireOk = true)
    (hm : sessionMatches s.store.session env.signerAddress = false)
    (hcr : env.createResult = Except.ok h)
    (hnb : h.inboxId ≠ "")
    (hv : ∀ m, env.syncResult = some m → isTabLockMsg m = false ∧ isUninitMsg m = false) :
    (initializeWithRemoteSigner env s).2.1.store.session =
      some { address := strLower env.signerAddress, inboxId := h.inboxId,
             timestamp := env.now } ∧
    (∀ sess a b, strLower a = strLower b → sessionMatches sess a = sessionMatches sess b) := by
  constructor
  · rcases hsy : env.syncResult with _ | m
    · simp [initializeWithRemoteSigner, initVerify, initFinish, setSessionCache,
            hi, hc, hl, ha, hm, hcr, hsy, hnb]
    · obtain ⟨t1, t2⟩ := hv m hsy
      simp [initializeWithRemoteSigner, initVerify, initFinish, setSessionCache,
            hi, hc, hl, ha, hm, hcr, hsy, hnb, t1, t2]
  · intro sess a b hab
    cases sess <;> simp [sessionMatches, hab]

/-- Witness for C7: the spec scenario — the signer reports the mixed-case
identifier `0xABC`; the stored SessionRecord address is `0xabc`. -/
theorem session_address_lowercase_witness :
    (initializeWithRemoteSigner
      { lockedByAnotherTab := false, acquireOk := true, deleteAllOk := true,
        buildResult := Except.ok { inboxId := "in_9" },
        createResult := Except.ok { inboxId := "in_9" },
        syncResult := none, signerAddress := "0xABC", now := 7 }
      { store := { pendingDbClear := false, session := none },
        clientState := { client := none, isInitializing := false, error := none },
        restoring := false, initializing := false }).2.1.store.session =
      some { address := "0xabc", inboxId := "in_9", timestamp := 7 } := by
  have hmain := (session_address_lowercase
      { lockedByAnotherTab := false, acquireOk := true, deleteAllOk := true,
        buildResult := Except.ok { inboxId := "in_9" },
        createResult := Except.ok { inboxId := "in_9" },
        syncResult := none, signerAddress := "0xABC", now := 7 }
      { store := { pendingDbClear := false, session := none },
        clientState := { client := none, isInitializing := false, error := none },
        restoring := false, initializing := false }
      { inboxId := "in_9" }
      rfl rfl rfl rfl rfl rfl (by decide)
      (fun m hm => by exact absurd hm (by simp))).1
  rw [hmain]
  decide

/-- Helper: the outer catch block of `restoreSession` either propagates
TAB_LOCKED or returns false with no client installed. -/
theorem restoreCatch_shape (s : AppState) (tr : List Ev) (msg : String) :
    (∃ st t2, restoreCatch s tr msg = (Except.error "TAB_LOCKED", st, t2)) ∨
    (∃ st t2, restoreCatch s tr msg = (Except.ok false, st, t2) ∧
      st.clientState.client = none) := by
  unfold restoreCatch
  split_ifs <;>
    first
      | exact Or.inl ⟨_, _, rfl⟩
      | exact Or.inr ⟨_, _, rfl, rfl⟩

/-- Helper: the success tail of `restoreSession` returns true with the
built client installed. -/
theorem restoreSuccess_shape (now : Nat) (cached : SessionCache) (h : ClientHandle)
    (s : AppState) (tr : List Ev) :
    ∃ st t2, restoreSuccess now cached h s tr = (Except.ok true, st, t2) ∧
      st.clientState.client = some h := by
  unfold restoreSuccess
  split_ifs <;> exact ⟨_, _, rfl, rfl⟩

/-- Helper: every `restoreSession` call ends in exactly one of three
shapes — a propagated TAB_LOCKED error, a false return with no client
installed, or a true return with a client installed. -/
theorem restore_shape (env : Env) (s : AppState) :
    (∃ st tr, restoreSession env s = (Except.error "TAB_LOCKED", st, tr)) ∨
    (∃ st tr, restoreSession env s = (Except.ok false, st, tr) ∧
      st.clientState.client = none) ∨
    (∃ h st tr, restoreSession env s = (Except.ok true, st, tr) ∧
      st.clientState.client = some h) := by
  by_cases hg : (s.restoring || s.initializing || s.clientState.client.isSome) = true
  · rcases hcl : s.clientState.client with _ | h
    · refine Or.inr (Or.inl ⟨s, [], ?_, hcl⟩)
      unfold restoreSession
      rw [if_pos hg, hcl]
      rfl
    · refine Or.inr (Or.inr ⟨h, s, [], ?_, hcl⟩)
      unfold restoreSession
      rw [if_pos hg, hcl]
      rfl
  · have hcl : s.clientState.client = none := by
      rcases hcln : s.clientState.client with _ | h
      · rfl
      · exact absurd (by simp [hcln]) hg
    by_cases hp : s.store.pendingDbClear = true
    · by_cases hd : env.deleteAllOk = true
      · refine Or.inr (Or.inl
          ⟨{ s with store := { pendingDbClear := false, session := none } },
           [Ev.readPendingFlag, Ev.deleteAllDb, Ev.removePendingFlag, Ev.clearSessionEv],
           ?_, hcl⟩)
        simp [restoreSession, hg, hp, hd]
      · refine Or.inr (Or.inl ⟨s, [Ev.readPendingFlag, Ev.deleteAllDb], ?_, hcl⟩)
        simp [restoreSession, hg, hp, hd]
    · rcases hs2 : s.store.session with _ | cached
      · refine Or.inr (Or.inl ⟨s, [Ev.readPendingFlag, Ev.readSession], ?_, hcl⟩)
        simp [restoreSession, hg, hp, hs2]
      · by_cases hl2 : env.lockedByAnotherTab = true
        · refine Or.inl ⟨s, [Ev.readPendingFlag, Ev.readSession, Ev.lockCheck], ?_⟩
          simp [restoreSession, hg, hp, hs2, hl2]
        · by_cases ha2 : env.acquireOk = true
          · rcases hbr : env.buildResult with m | h
            · have hEq : restoreSession env s =
                  restoreCatch { s with clientState := initStart s.clientState }
                    [Ev.readPendingFlag, Ev.readSession, Ev.lockCheck, Ev.lockAcquire,
                     Ev.buildClient (strLower cached.address)] m := by
                simp [restoreSession, hg, hp, hs2, hl2, ha2, hbr]
              rw [hEq]
              rcases restoreCatch_shape { s with clientState := initStart s.clientState }
                  [Ev.readPendingFlag, Ev.readSession, Ev.lockCheck, Ev.lockAcquire,
                   Ev.buildClient (strLower cached.address)] m with
                ⟨st, t2, hE⟩ | ⟨st, t2, hE, hN⟩
              · exact Or.inl ⟨st, t2, hE⟩
              · exact Or.inr (Or.inl ⟨st, t2, hE, hN⟩)
            · rcases hsy : env.syncResult with _ | m
              · have hEq : restoreSession env s =
                    restoreSuccess env.now cached h
                      { s with clientState := initStart s.clientState }
                      [Ev.readPendingFlag, Ev.readSession, Ev.lockCheck, Ev.lockAcquire,
                       Ev.buildClient (strLower cached.address), Ev.syncNetwork] := by
                  simp [restoreSession, hg, hp, hs2, hl2, ha2, hbr, hsy]
                rw [hEq]
                obtain ⟨st, t2, hE, hS⟩ := restoreSuccess_shape env.now cached h
                  { s with clientState := initStart s.clientState }
                  [Ev.readPendingFlag, Ev.readSession, Ev.lockCheck, Ev.lockAcquire,
                   Ev.buildClient (strLower cached.address), Ev.syncNetwork]
                exact Or.inr (Or.inr ⟨h, st, t2, hE, hS⟩)
              · by_cases h1 : isTabLockMsg m = true
                · have hEq : restoreSession env s =
                      restoreCatch { s with clientState := initStart s.clientState }
                        [Ev.readPendingFlag, Ev.readSession, Ev.lockCheck, Ev.lockAcquire,
                         Ev.buildClient (strLower cached.address), Ev.syncNetwork,
                         Ev.lockRelease] "TAB_LOCKED" := by
                    simp [restoreSession, hg, hp, hs2, hl2, ha2, hbr, hsy, h1]
                  rw [hEq]
                  rcases restoreCatch_shape { s with clientState := initStart s.clientState }
                      [Ev.readPendingFlag, Ev.readSession, Ev.lockCheck, Ev.lockAcquire,
                       Ev.buildClient (strLower cached.address), Ev.syncNetwork,
                       Ev.lockRelease] "TAB_LOCKED" with
                    ⟨st, t2, hE⟩ | ⟨st, t2, hE, hN⟩
                  · exact Or.inl ⟨st, t2, hE⟩
                  · exact Or.inr (Or.inl ⟨st, t2, hE, hN⟩)
                · by_cases h2 : isUninitMsg m = true
                  · by_cases hbx : cached.inboxId = ""
                    · refine Or.inr (Or.inl
                        ⟨{ s with
                            store := { s.store with session := none },
                            clientState :=
                              initError "Identity registration incomplete. Please login again." },
                         [Ev.readPendingFlag, Ev.readSession, Ev.lockCheck, Ev.lockAcquire,
                          Ev.buildClient (strLower cached.address), Ev.syncNetwork,
                          Ev.lockRelease, Ev.clearSessionEv], ?_, rfl⟩)
                      simp [restoreSession, hg, hp, hs2, hl2, ha2, hbr, hsy, h1, h2, hbx]
                    · refine Or.inr (Or.inl
                        ⟨{ s with
                            store := { s.store with session := none },
                            clientState :=
                              initError "Identity registration incomplete. Please login again." },
                         [Ev.readPendingFlag, Ev.readSession, Ev.lockCheck, Ev.lockAcquire,
                          Ev.buildClient (strLower cached.address), Ev.syncNetwork,
                          Ev.lockRelease, Ev.deleteDb cached.inboxId, Ev.clearSessionEv],
                         ?_, rfl⟩)
                      simp [restoreSession, hg, hp, hs2, hl2, ha2, hbr, hsy, h1, h2, hbx]
                  · by_cases h3 : isDatabaseCorruptionError m = true
                    · have hEq : restoreSession env s =
                          restoreCatch
                            { s with
                                store := { s.store with pendingDbClear := true },
                                clientState := initStart s.clientState }
                            [Ev.readPendingFlag, Ev.readSession, Ev.lockCheck, Ev.lockAcquire,
                             Ev.buildClient (strLower cached.address), Ev.syncNetwork,
                             Ev.setPendingFlag] "DATABASE_CORRUPTED" := by
                        simp [restoreSession, hg, hp, hs2, hl2, ha2, hbr, hsy, h1, h2, h3]
                      rw [hEq]
                      rcases restoreCatch_shape
                          { s with
                              store := { s.store with pendingDbClear := true },
                              clientState := initStart s.clientState }
                          [Ev.readPendingFlag, Ev.readSession, Ev.lockCheck, Ev.lockAcquire,
                           Ev.buildClient (strLower cached.address), Ev.syncNetwork,
                           Ev.setPendingFlag] "DATABASE_CORRUPTED" with
                        ⟨st, t2, hE⟩ | ⟨st, t2, hE, hN⟩
                      · exact Or.inl ⟨st, t2, hE⟩
                      · exact Or.inr (Or.inl ⟨st, t2, hE, hN⟩)
                    · have hEq : restoreSession env s =
                          restoreSuccess env.now cached h
                            { s with clientState := initStart s.clientState }
                            [Ev.readPendingFlag, Ev.readSession, Ev.lockCheck, Ev.lockAcquire,
                             Ev.buildClient (strLower cached.address), Ev.syncNetwork] := by
                        simp [restoreSession, hg, hp, hs2, hl2, ha2, hbr, hsy, h1, h2, h3]
                      rw [hEq]
                      obtain ⟨st, t2, hE, hS⟩ := restoreSuccess_shape env.now cached h
                        { s with clientState := initStart s.clientState }
                        [Ev.readPendingFlag, Ev.readSession, Ev.lockCheck, Ev.lockAcquire,
                         Ev.buildClient (strLower cached.address), Ev.syncNetwork]
                      exact Or.inr (Or.inr ⟨h, st, t2, hE, hS⟩)
          · refine Or.inl
              ⟨s, [Ev.readPendingFlag, Ev.readSession, Ev.lockCheck, Ev.lockAcquire], ?_⟩
            simp [restoreSession, hg, hp, hs2, hl2, ha2]

/-- Claim C6: `restoreSession` returns true exactly when a live client is
installed at return (false returns always leave no client installed), and
the only error it ever propagates to the caller is TAB_LOCKED. -/
theorem restore_result_contract (env : Env) (s : AppState) :
    ((restoreSession env s).1 = Except.ok true →
      ((restoreSession env s).2.1.clientState.client).isSome = true) ∧
    ((restoreSession env s).1 = Except.ok false →
      ((restoreSession env s).2.1.clientState.client).isSome = false) ∧
    (∀ m, (restoreSession env s).1 = Except.error m → m = "TAB_LOCKED") := by
  rcases restore_shape env s with
    ⟨st, tr, hE⟩ | ⟨st, tr, hE, hN⟩ | ⟨h, st, tr, hE, hS⟩ <;>
    rw [hE] <;> refine ⟨?_, ?_, ?_⟩ <;> simp_all

/-- Witness for C6 at a concrete successful restoration: the call returned
true and a live client is installed. -/
theorem restore_result_contract_witness :
    ((restoreSession
      { lockedByAnotherTab := false, acquireOk := true, deleteAllOk := true,
        buildResult := Except.ok { inboxId := "in_2" },
        createResult := Except.ok { inboxId := "in_2" },
        syncResult := none, signerAddress := "0xabc", now := 5 }
      { store := { pendingDbClear := false,
                   session := some { address := "0xabc", inboxId := "in_1", timestamp := 0 } },
        clientState := { client := none, isInitializing := false, error := none },
        restoring := false, initializing := false }).2.1.clientState.client).isSome = true :=
  (restore_result_contract
      { lockedByAnotherTab := false, acquireOk := true, deleteAllOk := true,
        buildResult := Except.ok { inboxId := "in_2" },
        createResult := Except.ok { inboxId := "in_2" },
        syncResult := none, signerAddress := "0xabc", now := 5 }
      { store := { pendingDbClear := false,
                   session := some { address := "0xabc", inboxId := "in_1", timestamp := 0 } },
        clientState := { client := none, isInitializing := false, error := none },
        restoring := false, initializing := false }).1 rfl

end WorldChat
